import Mathlib

/-
Shallow embedding of the pythonic-fp-numpy wrapper library.

Source files modelled:
- src/pythonic_fp/numpy/hashable_wrapped_ndarray.py  (namespace HW below):
  the abstract base class HWrapNDArray with the DTypes kind classifier,
  plus its per-kind subclasses.
- src/pythonic_fp/numpy/hwrap.py  (namespace HV below):
  the earlier concrete HWrapNDArray that stores str(dtype) instead of a
  kind tag, plus its per-kind / per-precision subclasses.

Modelling conventions:
- A NumPy ndarray is a record of its dtype, shape, flattened row-major
  element values, an allocation identity (bufId) distinguishing distinct
  buffers, and its writeable flag.  np.array(x, copy=True) yields a fresh
  writeable buffer with the same dtype, shape and element values.
- Python's hash of bytes/tuples is modelled by a concrete deterministic
  combiner (hashPair / hashList).  It is a pure function of exactly the
  same inputs the source feeds to hash(), so equal inputs give equal
  digests, and at the concrete inputs used below unequal inputs give
  unequal digests, as the real hash does outside astronomically unlikely
  collisions.
- Floating-point elements are abstracted to an exact value or NaN; the
  only IEEE fact used is that NaN compares unequal to everything,
  including itself, which is what np.array_equal sees.
- Elements of object dtype carry both the referenced object's address
  (what ndarray.tobytes() serialises: the raw PyObject pointer) and its
  value (what the elementwise == of np.array_equal compares).
-/

/-- Concrete NumPy scalar dtypes relevant to the wrapper.  str_, bytes_ and
void carry their itemsize-determining width. -/
inductive NPDtype where
  | int8 | int16 | int32 | int64
  | uint8 | uint16 | uint32 | uint64
  | float16 | float32 | float64
  | complex64 | complex128
  | bool_
  | datetime64
  | timedelta64
  | str_ (width : Nat)
  | bytes_ (width : Nat)
  | void (width : Nat)
  | object_
deriving DecidableEq

/-- Bytes per element of each dtype (ndarray.dtype.itemsize). -/
def itemsize : NPDtype → Nat
  | .int8 => 1 | .int16 => 2 | .int32 => 4 | .int64 => 8
  | .uint8 => 1 | .uint16 => 2 | .uint32 => 4 | .uint64 => 8
  | .float16 => 2 | .float32 => 4 | .float64 => 8
  | .complex64 => 8 | .complex128 => 16
  | .bool_ => 1
  | .datetime64 => 8
  | .timedelta64 => 8
  | .str_ w => 4 * w
  | .bytes_ w => w
  | .void w => w
  | .object_ => 8

/-- Python's str() rendering of the dtype, as stored by hwrap.HWrapNDArray. -/
def dtypeStr : NPDtype → String
  | .int8 => "int8" | .int16 => "int16" | .int32 => "int32" | .int64 => "int64"
  | .uint8 => "uint8" | .uint16 => "uint16" | .uint32 => "uint32" | .uint64 => "uint64"
  | .float16 => "float16" | .float32 => "float32" | .float64 => "float64"
  | .complex64 => "complex64" | .complex128 => "complex128"
  | .bool_ => "bool"
  | .datetime64 => "datetime64"
  | .timedelta64 => "timedelta64"
  | .str_ w => "<U" ++ toString w
  | .bytes_ w => "|S" ++ toString w
  | .void w => "|V" ++ toString w
  | .object_ => "object"

/-- Name of the scalar type class (ndarray.dtype.type), used in the
unsupported-dtype error message. -/
def npTypeName : NPDtype → String
  | .int8 => "numpy.int8" | .int16 => "numpy.int16"
  | .int32 => "numpy.int32" | .int64 => "numpy.int64"
  | .uint8 => "numpy.uint8" | .uint16 => "numpy.uint16"
  | .uint32 => "numpy.uint32" | .uint64 => "numpy.uint64"
  | .float16 => "numpy.float16" | .float32 => "numpy.float32"
  | .float64 => "numpy.float64"
  | .complex64 => "numpy.complex64" | .complex128 => "numpy.complex128"
  | .bool_ => "numpy.bool_"
  | .datetime64 => "numpy.datetime64"
  | .timedelta64 => "numpy.timedelta64"
  | .str_ _ => "numpy.str_"
  | .bytes_ _ => "numpy.bytes_"
  | .void _ => "numpy.void"
  | .object_ => "numpy.object_"

/-- Element values stored in an ndarray buffer.  num covers the exact value
of any integer (and non-NaN float / complex / unsigned) element; nan is a
floating NaN payload; obj carries the referenced object's address (what
tobytes serialises) and its value (what Python == compares). -/
inductive Val where
  | num (v : Int)
  | nan
  | boolV (b : Bool)
  | obj (addr : Nat) (value : Int)
  | strV (s : String)
  | bytesV (l : List Nat)
  | voidV (l : List Nat)
  | dt (v : Int)
deriving DecidableEq

/-- Elementwise comparison performed by np.array_equal (Python ==):
numeric values compare by value across encodings (NumPy promotes), NaN is
unequal to everything including itself, object elements compare by the
referenced objects' own ==. -/
def valEq : Val → Val → Bool
  | .num a, .num b => a == b
  | .boolV a, .boolV b => a == b
  | .obj _ a, .obj _ b => a == b
  | .strV a, .strV b => a == b
  | .bytesV a, .bytesV b => a == b
  | .voidV a, .voidV b => a == b
  | .dt a, .dt b => a == b
  | _, _ => false

/-- Pointwise valEq over two buffers of the same element count. -/
def listValEq : List Val → List Val → Bool
  | [], [] => true
  | a :: as, b :: bs => valEq a b && listValEq as bs
  | _, _ => false

/-- Predicate: every element of the buffer is equal to itself under the
elementwise comparison (false exactly when some element is NaN). -/
def selfEqVals (l : List Val) : Bool := l.all (fun v => valEq v v)

/-- Little-endian byte encoding of a natural number into a fixed width. -/
def encodeLE (width : Nat) (v : Nat) : List Nat :=
  (List.range width).map (fun i => v / 256 ^ i % 256)

/-- Two's-complement little-endian byte encoding of an integer. -/
def intBytes (width : Nat) (v : Int) : List Nat :=
  encodeLE width (v % ((2 : Int) ^ (8 * width))).toNat

/-- Pad (with NUL bytes) or truncate a byte list to a fixed width. -/
def padTo (width : Nat) (l : List Nat) : List Nat :=
  l.take width ++ List.replicate (width - l.length) 0

/-- Raw bytes of one element as ndarray.tobytes() serialises it for the
given dtype.  Integer-valued elements are written over the dtype's
itemsize, so the same value stored at different bit-widths yields
different bytes; a NaN element is a fixed payload over the itemsize; an
object element's bytes are its raw 8-byte PyObject pointer (the address),
not the referenced value. -/
def elemBytes (d : NPDtype) : Val → List Nat
  | .num v => intBytes (itemsize d) v
  | .nan => List.replicate (itemsize d) 255
  | .boolV b => [if b then 1 else 0]
  | .obj addr _ => encodeLE 8 addr
  | .strV s => padTo (itemsize d) ((s.data.map (fun c => encodeLE 4 c.toNat)).flatten)
  | .bytesV l => padTo (itemsize d) l
  | .voidV l => padTo (itemsize d) l
  | .dt v => intBytes 8 v

/-- A NumPy ndarray: dtype, shape, flattened row-major element values, an
allocation identity distinguishing distinct buffers, and its writeable
flag. -/
structure NDArray where
  dtype : NPDtype
  shape : List Nat
  data : List Val
  bufId : Nat
  writeable : Bool
deriving DecidableEq

/-- np.array(a, copy=True): a fresh buffer (new identity, writeable by
default) with the same dtype, shape and element values. -/
def npCopy (a : NDArray) (fresh : Nat) : NDArray :=
  { a with bufId := fresh, writeable := true }

/-- ndarray.tobytes(): row-major concatenation of each element's bytes. -/
def tobytes (a : NDArray) : List Nat :=
  (a.data.map (elemBytes a.dtype)).flatten

/-- np.array_equal: same shape and elementwise == of the values (dtype is
not compared; values are compared after NumPy promotion). -/
def arrayEqual (x y : NDArray) : Bool :=
  x.shape == y.shape && listValEq x.data y.data

/-- Order-sensitive pairing hash modelling Python's hash of a 2-tuple. -/
def hashPair (a b : Nat) : Nat :=
  (a * 1000003 + b * 8191 + 12345) % 2 ^ 61

/-- Hash of a byte string or of a tuple of naturals, modelling Python's
hash of bytes / tuples: a fold of the pairing hash over the contents. -/
def hashList (l : List Nat) : Nat :=
  l.foldl (fun h x => hashPair h (x + 1)) 5381

/-- Hash of a Python string, modelling hash(str). -/
def hashStr (s : String) : Nat :=
  hashList (s.data.map Char.toNat)

namespace HW

/-- Enumeration DTypes of hashable_wrapped_ndarray.py: the eight closed
kind categories. -/
inductive DTypes where
  | number | str_ | bytes | void | object_ | datetime64 | timedelta64 | bool_
deriving DecidableEq

/-- Hash of a DTypes enum member (any injective code works; Python hashes
enum members by identity, which is injective on the eight members). -/
def kindCode : DTypes → Nat
  | .number => 0 | .str_ => 1 | .bytes => 2 | .void => 3
  | .object_ => 4 | .datetime64 => 5 | .timedelta64 => 6 | .bool_ => 7

/-- Models issubclass(dtype, np.number).  np.timedelta64 is a subclass of
np.signedinteger, hence of np.number, so it tests true here; np.bool_,
np.datetime64 and the flexible/object types do not. -/
def issubNumber : NPDtype → Bool
  | .int8 | .int16 | .int32 | .int64 => true
  | .uint8 | .uint16 | .uint32 | .uint64 => true
  | .float16 | .float32 | .float64 => true
  | .complex64 | .complex128 => true
  | .timedelta64 => true
  | _ => false

/-- Models the source's isinstance(dtype, np.str_) test on line 85.  dtype
there is the scalar type object (a class), and a class object is never an
instance of np.str_, so this test is False for every dtype, including
np.str_ itself. -/
def isinstStr (_ : NPDtype) : Bool := false

/-- Models issubclass(dtype, np.bytes_). -/
def issubBytes : NPDtype → Bool
  | .bytes_ _ => true
  | _ => false

/-- Models issubclass(dtype, np.datetime64). -/
def issubDatetime : NPDtype → Bool
  | .datetime64 => true
  | _ => false

/-- Models issubclass(dtype, np.timedelta64). -/
def issubTimedelta : NPDtype → Bool
  | .timedelta64 => true
  | _ => false

/-- Models issubclass(dtype, np.bool_). -/
def issubBool : NPDtype → Bool
  | .bool_ => true
  | _ => false

/-- Models issubclass(dtype, np.void).  np.bytes_ and np.str_ are flexible
types but not subclasses of np.void. -/
def issubVoid : NPDtype → Bool
  | .void _ => true
  | _ => false

/-- Models issubclass(dtype, np.object_).  np.str_ subclasses builtins.str
and np.character, not np.object_. -/
def issubObject : NPDtype → Bool
  | .object_ => true
  | _ => false

/-- Kind classification chain of HWrapNDArray.__init__ (lines 82-101),
branch for branch: number via issubclass, then the (dead) isinstance test
for str_, then bytes, datetime64, timedelta64, bool_, void, object_, else
TypeError. -/
def classify (d : NPDtype) : Except String DTypes :=
  if issubNumber d then .ok .number
  else if isinstStr d then .ok .str_
  else if issubBytes d then .ok .bytes
  else if issubDatetime d then .ok .datetime64
  else if issubTimedelta d then .ok .timedelta64
  else if issubBool d then .ok .bool_
  else if issubVoid d then .ok .void
  else if issubObject d then .ok .object_
  else .error ("HWrapNDArray: Unknow np.dtype " ++ npTypeName d)

/-- Instance state of hashable_wrapped_ndarray.HWrapNDArray: the slots
_ndarray, _type, _shape, _hash. -/
structure HWrapNDArray where
  _ndarray : NDArray
  _type : DTypes
  _shape : List Nat
  _hash : Nat
deriving DecidableEq

/-- The copied buffer after setflags(write=False): fresh identity, same
dtype/shape/values, read-only. -/
def frozenCopy (nd : NDArray) (fresh : Nat) : NDArray :=
  { npCopy nd fresh with writeable := false }

/-- Cached digest: hash((self._ndarray.tobytes(), hash((self._shape,
self._type)))) of line 104. -/
def digest (b : List Nat) (shape : List Nat) (t : DTypes) : Nat :=
  hashPair (hashList b) (hashPair (hashList shape) (kindCode t))

/-- HWrapNDArray.__init__ (lines 78-104): copy the input, freeze the copy,
classify its dtype (a TypeError propagates when the chain falls through,
modelled by Except.map), record the shape and cache the digest. -/
def HWrapNDArray.init (nd : NDArray) (fresh : Nat) : Except String HWrapNDArray :=
  (classify (frozenCopy nd fresh).dtype).map (fun t =>
    { _ndarray := frozenCopy nd fresh
      _type := t
      _shape := (frozenCopy nd fresh).shape
      _hash := digest (tobytes (frozenCopy nd fresh)) (frozenCopy nd fresh).shape t })

/-- HWrapNDArray.__call__ (line 122): np.array(self._ndarray), which with
NumPy's default copy=True allocates a fresh writeable buffer. -/
def HWrapNDArray.call (w : HWrapNDArray) (fresh : Nat) : NDArray :=
  npCopy w._ndarray fresh

/-- HWrapNDArray.copy (line 144): np.array(self._ndarray, copy=True). -/
def HWrapNDArray.copy (w : HWrapNDArray) (fresh : Nat) : NDArray :=
  npCopy w._ndarray fresh

/-- HWrapNDArray.__hash__ (line 125): return the cached digest. -/
def HWrapNDArray.hashM (w : HWrapNDArray) : Nat := w._hash

/-- HWrapNDArray.__eq__ between two wrapper instances (lines 130-132):
False on differing _shape or _type, else np.array_equal of the buffers. -/
def eqW (a b : HWrapNDArray) : Bool :=
  if a._shape ≠ b._shape ∨ a._type ≠ b._type then false
  else arrayEqual a._ndarray b._ndarray

/-- An arbitrary Python object handed to __eq__: either a wrapper instance
or anything else. -/
inductive PyObject where
  | wrap (w : HWrapNDArray)
  | notWrap (tag : Nat)

/-- HWrapNDArray.__eq__ (lines 127-132) including the isinstance gate:
False for any non-wrapper argument. -/
def eqPy (a : HWrapNDArray) : PyObject → Bool
  | .notWrap _ => false
  | .wrap w => eqW a w

/-- Mutation of whatever array data is reachable through buffer identity
target: it changes the wrapper's stored buffer exactly when that buffer IS
the target (aliasing), and is invisible to the wrapper otherwise. -/
def mutateBuf (w : HWrapNDArray) (target : Nat) (d : List Val) : HWrapNDArray :=
  if w._ndarray.bufId = target then
    { w with _ndarray := { w._ndarray with data := d } }
  else w

/-- HWrapNDArrayNumber.__init__ (lines 150-151): super().__init__ only. -/
def HWrapNDArrayNumber.init : NDArray → Nat → Except String HWrapNDArray :=
  HWrapNDArray.init

/-- HWrapNDArrayBool.__init__ (lines 231-232): super().__init__ only. -/
def HWrapNDArrayBool.init : NDArray → Nat → Except String HWrapNDArray :=
  HWrapNDArray.init

/-- HWrapNDArrayObject.__init__ (lines 210-211): super().__init__ only. -/
def HWrapNDArrayObject.init : NDArray → Nat → Except String HWrapNDArray :=
  HWrapNDArray.init

/-- Extract the constructed wrapper from a successful construction. -/
def getOk (x : Except String HWrapNDArray) (dflt : HWrapNDArray) : HWrapNDArray :=
  match x with
  | .ok w => w
  | .error _ => dflt

/-- Placeholder wrapper used as the default of getOk. -/
def dfltW : HWrapNDArray :=
  { _ndarray := { dtype := .bool_, shape := [], data := [], bufId := 0, writeable := false }
    _type := .bool_
    _shape := []
    _hash := 0 }

/-- Cached hash of a construction result (0 when construction failed). -/
def hashOk (x : Except String HWrapNDArray) : Nat :=
  match x with
  | .ok w => w._hash
  | .error _ => 0

/-- Equality of two construction results (false unless both succeeded). -/
def eqOk (x y : Except String HWrapNDArray) : Bool :=
  match x, y with
  | .ok a, .ok b => eqW a b
  | _, _ => false

/-- Success test of a construction result. -/
def okB (x : Except String HWrapNDArray) : Bool :=
  match x with
  | .ok _ => true
  | .error _ => false

/-- Success test of a classification result. -/
def okD (x : Except String DTypes) : Bool :=
  match x with
  | .ok _ => true
  | .error _ => false

end HW

namespace HV

/-- Instance state of hwrap.HWrapNDArray: the slots _ndarray, _dtype (the
str() of the dtype), _shape, _hash. -/
structure HWrapNDArray where
  _ndarray : NDArray
  _dtype : String
  _shape : List Nat
  _hash : Nat
deriving DecidableEq

/-- Cached digest of hwrap line 41: hash((tobytes, hash((shape, str(dtype))))). -/
def digestS (b : List Nat) (shape : List Nat) (ds : String) : Nat :=
  hashPair (hashList b) (hashPair (hashList shape) (hashStr ds))

/-- hwrap.HWrapNDArray.__init__ (lines 36-41): copy, freeze, record
str(dtype) and shape, cache the digest.  No kind classification: this
constructor never fails. -/
def HWrapNDArray.init (nd : NDArray) (fresh : Nat) : HWrapNDArray :=
  { _ndarray := HW.frozenCopy nd fresh
    _dtype := dtypeStr (HW.frozenCopy nd fresh).dtype
    _shape := (HW.frozenCopy nd fresh).shape
    _hash := digestS (tobytes (HW.frozenCopy nd fresh)) (HW.frozenCopy nd fresh).shape
      (dtypeStr (HW.frozenCopy nd fresh).dtype) }

/-- hwrap.HWrapNDArray.__call__ (line 47): np.array(self._ndarray,
copy=True), a fresh writeable copy. -/
def HWrapNDArray.call (w : HWrapNDArray) (fresh : Nat) : NDArray :=
  npCopy w._ndarray fresh

/-- hwrap.HWrapNDArray.__eq__ between wrappers (lines 55-57): False on
differing _shape or _dtype string, else np.array_equal. -/
def eqV (a b : HWrapNDArray) : Bool :=
  if a._shape ≠ b._shape ∨ a._dtype ≠ b._dtype then false
  else arrayEqual a._ndarray b._ndarray

/-- hwrap.HWrapNDArrayUInt8.__init__ (lines 133-134): super().__init__
only, no runtime dtype check. -/
def HWrapNDArrayUInt8.init : NDArray → Nat → HWrapNDArray :=
  HWrapNDArray.init

/-- hwrap.HWrapNDArrayBool.__init__ (lines 70-71): super().__init__ only. -/
def HWrapNDArrayBool.init : NDArray → Nat → HWrapNDArray :=
  HWrapNDArray.init

end HV

/- Concrete sample inputs used by the claim theorems and witnesses. -/

/-- The int32 array np.array([1, 0], dtype=np.int32). -/
def arrI32c1 : NDArray :=
  { dtype := .int32, shape := [2], data := [.num 1, .num 0], bufId := 0, writeable := true }

/-- The int64 array np.array([1, 0], dtype=np.int64): numerically equal to
arrI32c1 but encoded at twice the byte width. -/
def arrI64c1 : NDArray :=
  { dtype := .int64, shape := [2], data := [.num 1, .num 0], bufId := 1, writeable := true }

/-- HWrapNDArrayNumber(np.array([1, 0], dtype=np.int32)). -/
def wI32c1 : HW.HWrapNDArray := HW.getOk (HW.HWrapNDArrayNumber.init arrI32c1 10) HW.dfltW

/-- HWrapNDArrayNumber(np.array([1, 0], dtype=np.int64)). -/
def wI64c1 : HW.HWrapNDArray := HW.getOk (HW.HWrapNDArrayNumber.init arrI64c1 11) HW.dfltW

/-- The int16 array np.array([3, -1], dtype=np.int16). -/
def arrI16c2 : NDArray :=
  { dtype := .int16, shape := [2], data := [.num 3, .num (-1)], bufId := 2, writeable := true }

/-- The int32 array np.array([3, -1], dtype=np.int32). -/
def arrI32c2 : NDArray :=
  { dtype := .int32, shape := [2], data := [.num 3, .num (-1)], bufId := 3, writeable := true }

/-- HWrapNDArrayNumber(np.array([3, -1], dtype=np.int16)). -/
def wI16c2 : HW.HWrapNDArray := HW.getOk (HW.HWrapNDArrayNumber.init arrI16c2 12) HW.dfltW

/-- HWrapNDArrayNumber(np.array([3, -1], dtype=np.int32)). -/
def wI32c2 : HW.HWrapNDArray := HW.getOk (HW.HWrapNDArrayNumber.init arrI32c2 13) HW.dfltW

/-- The Unicode-string array np.array(['abc']) of dtype <U3. -/
def arrStrC3 : NDArray :=
  { dtype := .str_ 3, shape := [1], data := [.strV "abc"], bufId := 4, writeable := true }

/-- A numeric array handed to the boolean-only variant constructor. -/
def arrNumC4 : NDArray :=
  { dtype := .int32, shape := [3], data := [.num 1, .num 2, .num 3], bufId := 5, writeable := true }

/-- An object array over one referenced object of value 7 living at
address 1000. -/
def arrObjA : NDArray :=
  { dtype := .object_, shape := [1], data := [.obj 1000 7], bufId := 6, writeable := true }

/-- An independently constructed object array over a DIFFERENT referenced
object (address 2000) with the same value 7. -/
def arrObjB : NDArray :=
  { dtype := .object_, shape := [1], data := [.obj 2000 7], bufId := 7, writeable := true }

/-- HWrapNDArrayObject over arrObjA. -/
def wObjA : HW.HWrapNDArray := HW.getOk (HW.HWrapNDArrayObject.init arrObjA 14) HW.dfltW

/-- HWrapNDArrayObject over arrObjB. -/
def wObjB : HW.HWrapNDArray := HW.getOk (HW.HWrapNDArrayObject.init arrObjB 15) HW.dfltW

/-- The float64 array np.array([np.nan]). -/
def arrNaN : NDArray :=
  { dtype := .float64, shape := [1], data := [.nan], bufId := 8, writeable := true }

/-- First construction of HWrapNDArrayNumber over the NaN array. -/
def wNaN1 : HW.HWrapNDArray := HW.getOk (HW.HWrapNDArrayNumber.init arrNaN 16) HW.dfltW

/-- Second, independent construction over the same NaN array. -/
def wNaN2 : HW.HWrapNDArray := HW.getOk (HW.HWrapNDArrayNumber.init arrNaN 17) HW.dfltW

/-- Sample int32 array [5] used by the determinism witness. -/
def arrDetW : NDArray :=
  { dtype := .int32, shape := [1], data := [.num 5], bufId := 11, writeable := true }

/-- Boolean array [True] of shape (1,), a sample wrapper input. -/
def arrB1 : NDArray :=
  { dtype := .bool_, shape := [1], data := [.boolV true], bufId := 9, writeable := true }

/-- Boolean array [True, False] of shape (2,), differing in shape from
arrB1. -/
def arrB2 : NDArray :=
  { dtype := .bool_, shape := [2], data := [.boolV true, .boolV false], bufId := 10, writeable := true }

/-- Wrapper over arrB1. -/
def wB1 : HW.HWrapNDArray := HW.getOk (HW.HWrapNDArray.init arrB1 18) HW.dfltW

/-- Wrapper over arrB2. -/
def wB2 : HW.HWrapNDArray := HW.getOk (HW.HWrapNDArray.init arrB2 19) HW.dfltW

/-- Sample int32 array used by the copy-independence witness. -/
def arrC9 : NDArray :=
  { dtype := .int32, shape := [2], data := [.num 4, .num 9], bufId := 21, writeable := true }

/-- Wrapper over arrC9. -/
def wC9 : HW.HWrapNDArray := HW.getOk (HW.HWrapNDArray.init arrC9 22) HW.dfltW

/-- Boolean array [True, False] fed to both a numeric-labeled and a
boolean-labeled variant constructor. -/
def arrBoolC10 : NDArray :=
  { dtype := .bool_, shape := [2], data := [.boolV true, .boolV false], bufId := 23, writeable := true }

/- Helper lemmas shared by several claim proofs. -/

/-- Helper: the frozen copy keeps the source dtype. -/
theorem frozenCopy_dtype (nd : NDArray) (f : Nat) :
    (HW.frozenCopy nd f).dtype = nd.dtype := rfl

/-- Helper: the frozen copy keeps the source shape. -/
theorem frozenCopy_shape (nd : NDArray) (f : Nat) :
    (HW.frozenCopy nd f).shape = nd.shape := rfl

/-- Helper: the frozen copy keeps the source element values. -/
theorem frozenCopy_data (nd : NDArray) (f : Nat) :
    (HW.frozenCopy nd f).data = nd.data := rfl

/-- Helper: tobytes does not depend on buffer identity or writeability. -/
theorem tobytes_frozenCopy (nd : NDArray) (f : Nat) :
    tobytes (HW.frozenCopy nd f) = tobytes nd := rfl

/-- Helper: a buffer all of whose elements are self-equal under the
elementwise comparison is pointwise equal to itself. -/
theorem listValEq_self (l : List Val) (h : selfEqVals l = true) :
    listValEq l l = true := by
  induction l with
  | nil => rfl
  | cons a as ih =>
      unfold selfEqVals at h
      rw [List.all_cons, Bool.and_eq_true] at h
      unfold listValEq
      rw [Bool.and_eq_true]
      exact ⟨h.1, ih h.2⟩

/-- Claim C1 (code bug): equals must imply equal hash, but HWrapNDArrayNumber
over int32 [1, 0] and int64 [1, 0] compare equal (same shape, both
classified DTypes.number, np.array_equal promotes across widths) while
their digests are computed from different tobytes, so the hashes differ. -/
theorem hw_eq_true_hash_ne_c1 :
    HW.eqW wI32c1 wI64c1 = true ∧ wI32c1._hash ≠ wI64c1._hash := by
  exact ⟨by decide, by decide⟩

/-- Claim C2 (code bug): the claim says numerically equal arrays at
different bit-widths hash unequal AND compare unequal; on the code the
hashes do differ but the wrappers compare EQUAL, because the first
equality gate uses only the coarse DTypes kind, not the byte width. -/
theorem hw_cross_width_compare_equal_c2 :
    HW.eqW wI16c2 wI32c2 = true ∧ wI16c2._hash ≠ wI32c2._hash := by
  exact ⟨by decide, by decide⟩

/-- Claim C3 (code bug): the text family is one of the eight declared
kinds (DTypes.str_ exists), yet classification of np.str_ falls through to
the unsupported-dtype TypeError, because line 85 tests
isinstance(dtype, np.str_) on a class; construction of a wrapper over a
string array therefore fails.  The other families do classify: in
particular np.timedelta64, being a subclass of np.number, lands in
DTypes.number via the first branch. -/
theorem hw_classify_str_errors_c3 :
    HW.classify (NPDtype.str_ 3)
        = Except.error ("HWrapNDArray: Unknow np.dtype " ++ npTypeName (NPDtype.str_ 3)) ∧
    HW.HWrapNDArray.init arrStrC3 0
        = Except.error ("HWrapNDArray: Unknow np.dtype " ++ npTypeName (NPDtype.str_ 3)) ∧
    HW.classify NPDtype.int32 = Except.ok HW.DTypes.number ∧
    HW.classify (NPDtype.bytes_ 3) = Except.ok HW.DTypes.bytes ∧
    HW.classify NPDtype.datetime64 = Except.ok HW.DTypes.datetime64 ∧
    HW.classify NPDtype.timedelta64 = Except.ok HW.DTypes.number ∧
    HW.classify NPDtype.bool_ = Except.ok HW.DTypes.bool_ ∧
    HW.classify (NPDtype.void 4) = Except.ok HW.DTypes.void ∧
    HW.classify NPDtype.object_ = Except.ok HW.DTypes.object_ :=
  ⟨rfl, rfl, rfl, rfl, rfl, rfl, rfl, rfl, rfl⟩

/-- Claim C4 counterexample: constructing the boolean-only variant
HWrapNDArrayBool from numeric int32 source data SUCCEEDS (and tags the
instance DTypes.number); no kind-mismatch error is raised anywhere. -/
theorem hw_bool_variant_accepts_number_c4 :
    HW.okB (HW.HWrapNDArrayBool.init arrNumC4 0) = true ∧
    (HW.getOk (HW.HWrapNDArrayBool.init arrNumC4 0) HW.dfltW)._type = HW.DTypes.number :=
  ⟨rfl, rfl⟩

/-- Claim C4 amended: the kind-specific variant constructors perform no
runtime kind or precision validation at all; each one is exactly the base
constructor, so any array the base accepts is accepted by every variant
and no kind-mismatch error exists. -/
theorem hw_variants_add_no_checks_c4 :
    ∀ (nd : NDArray) (i : Nat),
      HW.HWrapNDArrayBool.init nd i = HW.HWrapNDArray.init nd i ∧
      HW.HWrapNDArrayNumber.init nd i = HW.HWrapNDArray.init nd i ∧
      HW.HWrapNDArrayObject.init nd i = HW.HWrapNDArray.init nd i ∧
      HV.HWrapNDArrayUInt8.init nd i = HV.HWrapNDArray.init nd i ∧
      HV.HWrapNDArrayBool.init nd i = HV.HWrapNDArray.init nd i :=
  fun _ _ => ⟨rfl, rfl, rfl, rfl, rfl⟩

/-- Claim C5 (code bug): over object arrays, equality follows the
referenced objects' own values (np.array_equal elementwise ==), but the
digest is computed from tobytes, i.e. from the raw PyObject addresses; two
independently constructed wrappers over value-equal objects at different
addresses therefore compare equal yet hash unequal, contradicting the
claim that both hash and equality follow the referenced objects. -/
theorem hw_object_eq_true_hash_ne_c5 :
    HW.eqW wObjA wObjB = true ∧ wObjA._hash ≠ wObjB._hash := by
  exact ⟨by decide, by decide⟩

/-- Claim C6 (code bug): the borrow operation __call__ does not return the
internally held read-only buffer: it evaluates np.array(self._ndarray)
which, with NumPy's default copy=True, allocates a fresh buffer, and that
fresh buffer is writeable; the method's own docstring and the spec promise
an allocation-free read-only reference.  The same holds for hwrap's
__call__, which copies explicitly. -/
theorem hw_call_returns_writable_copy_c6 :
    ∀ (w : HW.HWrapNDArray) (v : HV.HWrapNDArray) (fresh : Nat),
      HW.HWrapNDArray.call w fresh = npCopy w._ndarray fresh ∧
      (HW.HWrapNDArray.call w fresh).writeable = true ∧
      (HW.HWrapNDArray.call w fresh).bufId = fresh ∧
      HV.HWrapNDArray.call v fresh = npCopy v._ndarray fresh ∧
      (HV.HWrapNDArray.call v fresh).writeable = true :=
  fun _ _ _ => ⟨rfl, rfl, rfl, rfl, rfl⟩

/-- Claim C7 counterexample: two wrappers constructed from the identical
float64 array [nan] have equal cached hashes but compare UNEQUAL, because
np.array_equal follows IEEE semantics where NaN is unequal to itself. -/
theorem hw_nan_twice_not_equal_c7 :
    HW.eqW wNaN1 wNaN2 = false ∧ wNaN1._hash = wNaN2._hash := by
  exact ⟨by decide, by decide⟩

/-- Claim C7 amended: construction is a pure function of the input data,
so two constructions from identical data always cache equal hashes; and
whenever every element of the data is self-equal under the elementwise
comparison (in particular for any array without NaN elements), the two
instances also compare equal. -/
theorem hw_construction_deterministic_c7 :
    ∀ (a : NDArray) (i j : Nat),
      HW.hashOk (HW.HWrapNDArray.init a i) = HW.hashOk (HW.HWrapNDArray.init a j) ∧
      (HW.okD (HW.classify a.dtype) = true → selfEqVals a.data = true →
        HW.eqOk (HW.HWrapNDArray.init a i) (HW.HWrapNDArray.init a j) = true) := by
  intro a i j
  constructor
  · unfold HW.HWrapNDArray.init
    simp only [frozenCopy_dtype]
    cases HW.classify a.dtype with
    | error e => rfl
    | ok t => rfl
  · intro hok hself
    unfold HW.eqOk HW.HWrapNDArray.init
    simp only [frozenCopy_dtype]
    cases h : HW.classify a.dtype with
    | error e =>
        rw [h] at hok
        exact absurd hok (by simp [HW.okD])
    | ok t =>
        simp only [Except.map]
        show HW.eqW _ _ = true
        unfold HW.eqW
        rw [if_neg (by simp [HW.frozenCopy, npCopy])]
        unfold arrayEqual
        rw [Bool.and_eq_true]
        exact ⟨by simp [HW.frozenCopy, npCopy], listValEq_self a.data hself⟩

/-- Claim C7 witness: the amended determinism theorem applied at the
concrete int32 array [5]. -/
theorem hw_construction_deterministic_c7_witness :
    HW.hashOk (HW.HWrapNDArray.init arrDetW 0) = HW.hashOk (HW.HWrapNDArray.init arrDetW 1) ∧
    HW.eqOk (HW.HWrapNDArray.init arrDetW 0) (HW.HWrapNDArray.init arrDetW 1) = true :=
  ⟨(hw_construction_deterministic_c7 arrDetW 0 1).1,
   (hw_construction_deterministic_c7 arrDetW 0 1).2 (by decide) (by decide)⟩

/-- Claim C8: __eq__ returns False for any non-wrapper argument; among
wrappers it returns False whenever shapes or kinds differ, regardless of
content, and otherwise returns exactly the full elementwise comparison of
the stored buffers. -/
theorem hw_eq_gating_c8 :
    ∀ (a w : HW.HWrapNDArray) (t : Nat),
      HW.eqPy a (HW.PyObject.notWrap t) = false ∧
      (a._shape ≠ w._shape ∨ a._type ≠ w._type → HW.eqPy a (HW.PyObject.wrap w) = false) ∧
      (a._shape = w._shape → a._type = w._type →
        HW.eqPy a (HW.PyObject.wrap w) = arrayEqual a._ndarray w._ndarray) := by
  intro a w t
  refine ⟨rfl, ?_, ?_⟩
  · intro h
    show HW.eqW a w = false
    unfold HW.eqW
    rw [if_pos h]
  · intro h1 h2
    show HW.eqW a w = arrayEqual a._ndarray w._ndarray
    unfold HW.eqW
    rw [if_neg (by simp [h1, h2])]

/-- Claim C8 witness: the gating theorem applied to concrete boolean
wrappers (a non-wrapper argument, a shape mismatch, and a same-shape
same-kind comparison). -/
theorem hw_eq_gating_c8_witness :
    HW.eqPy wB1 (HW.PyObject.notWrap 0) = false ∧
    HW.eqPy wB1 (HW.PyObject.wrap wB2) = false ∧
    HW.eqPy wB1 (HW.PyObject.wrap wB1) = arrayEqual wB1._ndarray wB1._ndarray :=
  ⟨(hw_eq_gating_c8 wB1 wB2 0).1,
   (hw_eq_gating_c8 wB1 wB2 0).2.1 (Or.inl (by decide)),
   (hw_eq_gating_c8 wB1 wB1 0).2.2 rfl rfl⟩

/-- Claim C9: the copy method returns a buffer with a fresh identity
(never the internally held buffer) that is writeable, and mutating through
that returned buffer's identity leaves the wrapper - hence its cached hash
and every subsequent equality result - unchanged. -/
theorem hw_copy_independent_c9 :
    ∀ (w : HW.HWrapNDArray) (fresh : Nat), fresh ≠ w._ndarray.bufId →
      (HW.HWrapNDArray.copy w fresh).bufId ≠ w._ndarray.bufId ∧
      (HW.HWrapNDArray.copy w fresh).writeable = true ∧
      ∀ (d : List Val),
        HW.mutateBuf w (HW.HWrapNDArray.copy w fresh).bufId d = w ∧
        (HW.mutateBuf w (HW.HWrapNDArray.copy w fresh).bufId d)._hash = w._hash ∧
        ∀ (b : HW.PyObject),
          HW.eqPy (HW.mutateBuf w (HW.HWrapNDArray.copy w fresh).bufId d) b = HW.eqPy w b := by
  intro w fresh h
  have hcopy : (HW.HWrapNDArray.copy w fresh).bufId = fresh := rfl
  have hmut : ∀ d, HW.mutateBuf w (HW.HWrapNDArray.copy w fresh).bufId d = w := by
    intro d
    unfold HW.mutateBuf
    rw [hcopy, if_neg (fun hc => h hc.symm)]
  refine ⟨by rw [hcopy]; exact h, rfl, fun d => ⟨hmut d, by rw [hmut d], fun b => by rw [hmut d]⟩⟩

/-- Claim C9 witness: the copy-independence theorem applied to a concrete
wrapper over the int32 array [4, 9] with fresh buffer identity 99. -/
theorem hw_copy_independent_c9_witness :
    (HW.HWrapNDArray.copy wC9 99).bufId ≠ wC9._ndarray.bufId ∧
    (HW.HWrapNDArray.copy wC9 99).writeable = true ∧
    HW.mutateBuf wC9 (HW.HWrapNDArray.copy wC9 99).bufId [] = wC9 :=
  ⟨(hw_copy_independent_c9 wC9 99 (by decide)).1,
   (hw_copy_independent_c9 wC9 99 (by decide)).2.1,
   ((hw_copy_independent_c9 wC9 99 (by decide)).2.2 []).1⟩

/-- Claim C10: equality never inspects the concrete variant subclass: for
any two wrapper instances it holds exactly when the recorded shapes, the
classified kinds and the elementwise comparison of the stored buffers all
agree; consequently a numeric-labeled and a boolean-labeled variant
constructed over the same boolean data (all of whose elements are
self-equal) compare equal. -/
theorem hw_eq_subclass_indifferent_c10 :
    (∀ (a b : HW.HWrapNDArray),
      HW.eqW a b = true ↔
        (a._shape = b._shape ∧ a._type = b._type ∧ arrayEqual a._ndarray b._ndarray = true)) ∧
    (∀ (nd : NDArray) (i j : Nat),
      HW.okD (HW.classify nd.dtype) = true → selfEqVals nd.data = true →
      HW.eqOk (HW.HWrapNDArrayNumber.init nd i) (HW.HWrapNDArrayBool.init nd j) = true) := by
  constructor
  · intro a b
    by_cases h1 : a._shape = b._shape
    · by_cases h2 : a._type = b._type
      · unfold HW.eqW
        rw [if_neg (by simp [h1, h2])]
        simp [h1, h2]
      · unfold HW.eqW
        rw [if_pos (Or.inr h2)]
        simp [h2]
    · unfold HW.eqW
      rw [if_pos (Or.inl h1)]
      simp [h1]
  · intro nd i j hok hself
    unfold HW.HWrapNDArrayNumber.init HW.HWrapNDArrayBool.init
    unfold HW.eqOk HW.HWrapNDArray.init
    simp only [frozenCopy_dtype]
    cases h : HW.classify nd.dtype with
    | error e =>
        rw [h] at hok
        exact absurd hok (by simp [HW.okD])
    | ok t =>
        simp only [Except.map]
        show HW.eqW _ _ = true
        unfold HW.eqW
        rw [if_neg (by simp [HW.frozenCopy, npCopy])]
        unfold arrayEqual
        rw [Bool.and_eq_true]
        exact ⟨by simp [HW.frozenCopy, npCopy], listValEq_self nd.data hself⟩

/-- Claim C10 witness: the subclass-indifference theorem applied to the
numeric-labeled and boolean-labeled variants over the concrete boolean
array [True, False]. -/
theorem hw_eq_subclass_indifferent_c10_witness :
    HW.eqOk (HW.HWrapNDArrayNumber.init arrBoolC10 0) (HW.HWrapNDArrayBool.init arrBoolC10 1)
      = true :=
  hw_eq_subclass_indifferent_c10.2 arrBoolC10 0 1 (by decide) (by decide)
